import Mathlib

/-!
Shallow embedding of the response-verification core of the s3verify
conformance-test client (files `list-objects-v1.go`,
`list-multipart-uploads.go`, and the server-config file), together with
theorems settling the frozen claims about it.

Conventions of the embedding:
* Go strings are Lean `String`s; Go `int64` values are Lean `Int`s
  (only equality comparisons occur, so no overflow arithmetic is involved).
* Fallible Go functions returning `error` become `Except String _`, the
  `String` being the `fmt.Errorf` message.
* The decoded XML body of an HTTP response is modelled as the decode
  outcome itself: `Body : Option α`, with `none` standing for a body the
  XML decoder rejects.
* The Go package-level fixture registry `objects` is passed to
  `verifyBodyListObjectsV1` as an explicit first argument.
-/

namespace S3Verify

/-- Object fixture metadata: key, last-modified, size and ETag
(`ObjectInfo` in the source). -/
structure ObjectInfo where
  Key : String
  LastModified : String
  Size : Int
  ETag : String
  deriving Repr, DecidableEq

/-- In-flight multipart upload fixture metadata (`ObjectMultipartInfo`
in the source). -/
structure ObjectMultipartInfo where
  Key : String
  UploadID : String
  Size : Int
  deriving Repr, DecidableEq

/-- Decoded `ListObjects V1` response body (`listBucketResult` in the
source): bucket name, contents, common prefixes and the max-keys echo.
Only the fields read by the verifiers are modelled; a common-prefix
entry is kept as its prefix string, since the verifier only counts
those entries. -/
structure listBucketResult where
  Name : String
  Contents : List ObjectInfo
  CommonPrefixes : List String
  MaxKeys : Int
  deriving Repr, DecidableEq

/-- Decoded `ListMultipartUploads` response body
(`listMultipartUploadsResult` in the source): bucket name and upload
entries. -/
structure listMultipartUploadsResult where
  Bucket : String
  Uploads : List ObjectMultipartInfo
  deriving Repr, DecidableEq

/-- An HTTP response as the verifiers see it: status line, response
headers, and the XML-decoded body (`none` models a malformed body the
decoder rejects). -/
structure HttpResponse (α : Type) where
  Status : String
  Headers : List (String × String)
  Body : Option α

/-- Server configuration (`ServerConfig` in the source); the reusable
HTTP client is irrelevant to the claims and is omitted. -/
structure ServerConfig where
  Access : String
  Secret : String
  Endpoint : String
  Region : String
  deriving Repr, DecidableEq

/-- Modelled from the spec: `xmlDecoder` (outside the excerpt) decodes
the XML response body into the operation result type and fails on a
malformed body.  With the body modelled as its decode outcome, decoding
returns the value or the malformed-body error. -/
def xmlDecoder {α : Type} (body : Option α) : Except String α :=
  match body with
  | none => .error "Malformed Body"
  | some v => .ok v

/-- Modelled from the spec: `verifyStandardHeaders` (outside the
excerpt) checks presence of common response headers such as the date
and the request id; failure is an unexpected-header error. -/
def verifyStandardHeaders {α : Type} (res : HttpResponse α) : Except String Unit :=
  if (res.Headers.any (fun p => p.1 == "Date")) &&
      (res.Headers.any (fun p => p.1 == "x-amz-request-id")) then
    .ok ()
  else
    .error "Unexpected Header Received"

/-- Embedding of `verifyStatusListObjectsV1`: the received status line
must equal the expected status string. -/
def verifyStatusListObjectsV1 (res : HttpResponse listBucketResult)
    (expectedStatus : String) : Except String Unit :=
  if res.Status ≠ expectedStatus then
    .error ("Unexpected Status Received: wanted " ++ expectedStatus ++ ", got " ++ res.Status)
  else
    .ok ()

/-- The entry-match condition of the double loop in
`verifyBodyListObjectsV1` (lines 97-99 of `list-objects-v1.go`): keys
equal, sizes equal, and the received ETag equal to the expected ETag
wrapped in double quotes. -/
def objectInfoMatches (receivedObject expectedObject : ObjectInfo) : Bool :=
  receivedObject.Key == expectedObject.Key &&
  receivedObject.Size == expectedObject.Size &&
  receivedObject.ETag == "\"" ++ expectedObject.ETag ++ "\""

/-- The `listedObjects` counter of `verifyBodyListObjectsV1`: the double
loop increments once for every (received, expected) pair that satisfies
`objectInfoMatches`. -/
def countListedObjects (receivedContents expectedContents : List ObjectInfo) : Nat :=
  receivedContents.foldl
    (fun listedObjects receivedObject =>
      listedObjects +
        (expectedContents.filter (fun expectedObject =>
          objectInfoMatches receivedObject expectedObject)).length)
    0

/-- Embedding of `verifyBodyListObjectsV1`.  `objects` is the Go
package-level fixture registry the source reads in its else branch,
passed explicitly. -/
def verifyBodyListObjectsV1 (objects : List ObjectInfo)
    (res : HttpResponse listBucketResult) (expectedList : listBucketResult) :
    Except String Unit :=
  match xmlDecoder res.Body with
  | .error e => .error e
  | .ok receivedList =>
    if receivedList.Name ≠ expectedList.Name then
      .error ("Unexpected Bucket Listed: wanted " ++ expectedList.Name ++ ", got " ++
        receivedList.Name)
    else
      let listedObjects := countListedObjects receivedList.Contents expectedList.Contents
      if expectedList.MaxKeys ≠ 0 then
        if expectedList.MaxKeys ≠
            ((receivedList.Contents.length + receivedList.CommonPrefixes.length : Nat) : Int) then
          .error ("Unexpected Number of Objects Listed: wanted " ++
            toString expectedList.MaxKeys ++ ", got " ++
            toString (receivedList.Contents.length + receivedList.CommonPrefixes.length))
        else
          .ok ()
      else
        if objects.length ≠ listedObjects then
          .error ("Unexpected Number of Objects Listed: wanted " ++
            toString objects.length ++ ", got " ++ toString listedObjects)
        else
          .ok ()

/-- Embedding of `verifyHeaderListObjectsV1`: delegates to the standard
headers check. -/
def verifyHeaderListObjectsV1 (res : HttpResponse listBucketResult) :
    Except String Unit :=
  match verifyStandardHeaders res with
  | .error e => .error e
  | .ok _ => .ok ()

/-- Embedding of `listObjectsV1Verify`: runs the status check, then the
body check, then the header check, stopping at the first error (the
order of lines 62-70 of `list-objects-v1.go`). -/
def listObjectsV1Verify (objects : List ObjectInfo)
    (res : HttpResponse listBucketResult) (expectedStatus : String)
    (expectedList : listBucketResult) : Except String Unit :=
  match verifyStatusListObjectsV1 res expectedStatus with
  | .error e => .error e
  | .ok _ =>
    match verifyBodyListObjectsV1 objects res expectedList with
    | .error e => .error e
    | .ok _ =>
      match verifyHeaderListObjectsV1 res with
      | .error e => .error e
      | .ok _ => .ok ()

/-- Modelled from the spec: the `ObjectInfos` sort order applied by
`sort.Sort(objectInfo)` in `mainListObjectsV1` orders objects by their
`Key` (the `Less` method lies outside the excerpt; the source comment
says "Order objects by their Key"). -/
def sortObjectInfosByKey (objectInfo : List ObjectInfo) : List ObjectInfo :=
  objectInfo.mergeSort (fun a b => a.Key ≤ b.Key)

/-- The first expected list built by `mainListObjectsV1` (lines 139-147
of `list-objects-v1.go`): all fixture objects sorted by key, no
max-keys. -/
def buildExpectedList (bucketName : String) (objects : List ObjectInfo) :
    listBucketResult :=
  { Name := bucketName
    Contents := sortObjectInfosByKey objects
    CommonPrefixes := []
    MaxKeys := 0 }

/-- The max-keys expected list built by `mainListObjectsV1` (lines
149-153 of `list-objects-v1.go`): the Go slice `objectInfo[:31]` keeps
the first 31 sorted objects, and `MaxKeys` is set to 30. -/
def buildExpectedListMaxKeys (bucketName : String) (objects : List ObjectInfo) :
    listBucketResult :=
  { Name := bucketName
    Contents := (sortObjectInfosByKey objects).take 31
    CommonPrefixes := []
    MaxKeys := 30 }

/-- Embedding of `listMultipartUploadsVerify` (lines 60-62 of
`list-multipart-uploads.go`): the body of the Go function is a bare
`return nil`. -/
def listMultipartUploadsVerify (res : HttpResponse listMultipartUploadsResult)
    (expectedStatus : String) (expectedList : listMultipartUploadsResult) :
    Except String Unit :=
  .ok ()

/-- Embedding of `verifyStatusListMultipartUploads`: the received status
line must equal the expected status string. -/
def verifyStatusListMultipartUploads (res : HttpResponse listMultipartUploadsResult)
    (expectedStatus : String) : Except String Unit :=
  if res.Status ≠ expectedStatus then
    .error ("Unexpected Status Received: wanted " ++ expectedStatus ++ ", got " ++ res.Status)
  else
    .ok ()

/-- Embedding of `verifyHeaderListMultipartUploads`: delegates to the
standard headers check. -/
def verifyHeaderListMultipartUploads (res : HttpResponse listMultipartUploadsResult) :
    Except String Unit :=
  match verifyStandardHeaders res with
  | .error e => .error e
  | .ok _ => .ok ()

/-- The entry-match condition of the double loop in
`verifyBodyListMultipartUploads` (lines 95-97 of
`list-multipart-uploads.go`): sizes, upload ids and keys equal. -/
def uploadMatches (receivedUpload expectedUpload : ObjectMultipartInfo) : Bool :=
  receivedUpload.Size == expectedUpload.Size &&
  receivedUpload.UploadID == expectedUpload.UploadID &&
  receivedUpload.Key == expectedUpload.Key

/-- The `totalUploads` counter of `verifyBodyListMultipartUploads`: the
double loop increments once per matching (received, expected) pair. -/
def countTotalUploads (receivedUploads expectedUploads : List ObjectMultipartInfo) : Nat :=
  receivedUploads.foldl
    (fun totalUploads receivedUpload =>
      totalUploads +
        (expectedUploads.filter (fun expectedUpload =>
          uploadMatches receivedUpload expectedUpload)).length)
    0

/-- Embedding of `verifyBodyListMultipartUploads`: decode, compare the
upload counts, then require the matching-pair count to equal the
expected count.  The bucket field is never compared. -/
def verifyBodyListMultipartUploads (res : HttpResponse listMultipartUploadsResult)
    (expectedList : listMultipartUploadsResult) : Except String Unit :=
  match xmlDecoder res.Body with
  | .error e => .error e
  | .ok receivedList =>
    if receivedList.Uploads.length ≠ expectedList.Uploads.length then
      .error ("Unexpected Number of Uploads Listed: wanted " ++
        toString expectedList.Uploads.length ++ ", got " ++
        toString receivedList.Uploads.length)
    else
      let totalUploads := countTotalUploads receivedList.Uploads expectedList.Uploads
      if totalUploads ≠ expectedList.Uploads.length then
        .error "Wrong MetaData Saved in Received List"
      else
        .ok ()

/-- Endpoint URL as `setRegion` sees it; only the host matters to the
Amazon-endpoint test. -/
structure URL where
  Host : String
  deriving Repr, DecidableEq

/-- Modelled from the spec: `isAmazonEndpoint` (outside the excerpt)
recognizes the Amazon S3 hostname pattern. -/
def isAmazonEndpoint (endpointURL : URL) : Bool :=
  endpointURL.Host == "s3.amazonaws.com"

/-- The global default region; fixed to "us-east-1" by the source
comment "Otherwise default to us-east-1" in `setRegion`. -/
def globalDefaultRegion : String := "us-east-1"

/-- Embedding of `setRegion`.  Go's `url.Parse` is outside the excerpt,
so its outcome is passed explicitly: `none` models a parse error
(returned as-is), `some u` the parsed endpoint URL. -/
def setRegion (endpointURL : Option URL) (config : ServerConfig) :
    Except String ServerConfig :=
  match endpointURL with
  | none => .error "invalid endpoint URL"
  | some u =>
    if config.Region == "" then
      if isAmazonEndpoint u then
        .ok { config with Region := "us-west-1" }
      else
        .ok { config with Region := globalDefaultRegion }
    else
      .ok config

/-- Spec-side ETag normalization: whether a string is at least two
characters long and both begins and ends with a double-quote
character. -/
def hasSurroundingQuotes (s : String) : Bool :=
  decide (2 ≤ s.data.length) && (s.data.head? == some '"') && (s.data.getLast? == some '"')

/-- Spec-side ETag normalization: remove the first and last character;
meaningful when `hasSurroundingQuotes` holds. -/
def stripSurroundingQuotes (s : String) : String :=
  String.mk ((s.data.drop 1).dropLast)

/- Concrete fixtures used by the counterexample and code-bug theorems. -/

/-- Forty-five identical object fixtures, standing for the 45-or-more
objects created by the earlier PUT tests. -/
def fixtureObjects45 : List ObjectInfo :=
  List.replicate 45 { Key := "obj", LastModified := "", Size := 0, ETag := "" }

/-- An expected object entry that no received entry of `recC3` matches. -/
def objExpectedC3 : ObjectInfo :=
  { Key := "a", LastModified := "", Size := 1, ETag := "etag-a" }

/-- A received object entry matching no expected entry of `expC3`. -/
def objReceivedC3 : ObjectInfo :=
  { Key := "z", LastModified := "", Size := 9, ETag := "\"etag-z\"" }

/-- Expected list with three entries and `MaxKeys = 30`, but a max-keys
value of 5 for the claim-3 counterexample. -/
def expC3 : listBucketResult :=
  { Name := "bucket-one"
    Contents := [objExpectedC3, objExpectedC3, objExpectedC3]
    CommonPrefixes := []
    MaxKeys := 5 }

/-- Received list with five entries matching none of `expC3`. -/
def recC3 : listBucketResult :=
  { Name := "bucket-one"
    Contents := [objReceivedC3, objReceivedC3, objReceivedC3, objReceivedC3, objReceivedC3]
    CommonPrefixes := []
    MaxKeys := 5 }

/-- Response for the claim-4 counterexample: correct status, bucket name
differing from the expected one, and headers failing the standard
headers check. -/
def resC4 : HttpResponse listBucketResult :=
  { Status := "200 OK"
    Headers := []
    Body := some { Name := "other", Contents := [], CommonPrefixes := [], MaxKeys := 0 } }

/-- Expected list for the claim-4 counterexample. -/
def expC4 : listBucketResult :=
  { Name := "bucket-one", Contents := [], CommonPrefixes := [], MaxKeys := 0 }

/-- A multipart upload entry shared by the claim-8 counterexample's
expected and received lists. -/
def uploadC8 : ObjectMultipartInfo :=
  { Key := "k", UploadID := "uid-1", Size := 0 }

/-- The duplicated expected entry of the claim-10 instance. -/
def dupObjC10 : ObjectInfo :=
  { Key := "dup", LastModified := "", Size := 7, ETag := "etag-dup" }

/-- A received entry matching `dupObjC10` (quoted ETag). -/
def recObjC10 : ObjectInfo :=
  { Key := "dup", LastModified := "", Size := 7, ETag := "\"etag-dup\"" }

/-- Expected list holding the same entry twice. -/
def expC10 : listBucketResult :=
  { Name := "bucket-one"
    Contents := [dupObjC10, dupObjC10]
    CommonPrefixes := []
    MaxKeys := 0 }

/-- Received list holding three copies of the matching entry: no
injective pairing into the two expected entries exists. -/
def recC10 : listBucketResult :=
  { Name := "bucket-one"
    Contents := [recObjC10, recObjC10, recObjC10]
    CommonPrefixes := []
    MaxKeys := 0 }

/-- Fixture registry of size six, the pair-count the claim-10 instance
produces. -/
def objectsC10 : List ObjectInfo :=
  List.replicate 6 dupObjC10

/-! ### Helper lemmas -/

/-- The optional last element of a list extended by one element is that
element. -/
theorem getLast?_append_singleton {α : Type} (l : List α) (a : α) :
    (l ++ [a]).getLast? = some a := by
  simp

/-- Characterization of a character list of the shape `'"' :: t ++ ['"']`
by its length, first and last elements, and the inner list. -/
theorem quoteWrap_chars_iff (l t : List Char) :
    l = '"' :: (t ++ ['"']) ↔
      ((2 ≤ l.length ∧ l.head? = some '"' ∧ l.getLast? = some '"') ∧
        (l.drop 1).dropLast = t) := by
  constructor
  · rintro rfl
    refine ⟨⟨by simp, rfl, ?_⟩, by simp⟩
    exact getLast?_append_singleton ('"' :: t) '"'
  · rintro ⟨⟨hlen, hhead, hlast⟩, hstrip⟩
    cases l with
    | nil => simp at hhead
    | cons c rest =>
      have hc : c = '"' := by simpa using hhead
      have hne : rest ≠ [] := by
        intro h
        rw [h] at hlen
        simp at hlen
      cases hr : rest.reverse with
      | nil => exact absurd (by simpa using congrArg List.reverse hr) hne
      | cons d ds =>
        have hrest : rest = ds.reverse ++ [d] := by
          have := congrArg List.reverse hr
          simpa using this
        have hd : d = '"' := by
          rw [hrest] at hlast
          have h2 : ((c :: ds.reverse) ++ [d]).getLast? = some '"' := hlast
          rw [getLast?_append_singleton] at h2
          exact Option.some.inj h2
        have hds : ds.reverse = t := by
          rw [hrest] at hstrip
          simpa using hstrip
        rw [hc, hrest, hd, hds]

/-- A string is the expected ETag wrapped in double quotes exactly when
it is quote-surrounded and stripping the surrounding quotes yields the
expected ETag. -/
theorem etagQuoted_iff (s t : String) :
    s = "\"" ++ t ++ "\"" ↔
      (hasSurroundingQuotes s = true ∧ stripSurroundingQuotes s = t) := by
  have hdata : ("\"" ++ t ++ "\"").data = '"' :: (t.data ++ ['"']) := by
    simp [String.data_append]
  have hstr : s = "\"" ++ t ++ "\"" ↔ s.data = '"' :: (t.data ++ ['"']) := by
    constructor
    · intro h
      rw [h, hdata]
    · intro h
      exact congrArg String.mk (h.trans hdata.symm)
  have hquotes : hasSurroundingQuotes s = true ↔
      (2 ≤ s.data.length ∧ s.data.head? = some '"' ∧ s.data.getLast? = some '"') := by
    simp [hasSurroundingQuotes, Bool.and_eq_true, and_assoc]
  have hstrip : stripSurroundingQuotes s = t ↔ (s.data.drop 1).dropLast = t.data := by
    constructor
    · intro h
      exact congrArg String.data h
    · intro h
      exact congrArg String.mk h
  rw [hstr, hquotes, hstrip, quoteWrap_chars_iff s.data t.data]

/-- Folding an accumulating add over a list totals the sum of the
per-element contributions. -/
theorem foldl_add_eq_sum {α : Type} (g : α → Nat) (l : List α) (n : Nat) :
    l.foldl (fun acc a => acc + g a) n = n + (l.map g).sum := by
  induction l generalizing n with
  | nil => simp
  | cons a l ih => simp [ih, Nat.add_assoc]

/-- The double-loop counter is the sum over received entries of the
number of expected entries each one matches. -/
theorem countListedObjects_eq_sum (rc ec : List ObjectInfo) :
    countListedObjects rc ec =
      (rc.map (fun r => (ec.filter (fun e => objectInfoMatches r e)).length)).sum := by
  simpa [countListedObjects] using
    foldl_add_eq_sum (fun r => (ec.filter (fun e => objectInfoMatches r e)).length) rc 0

/-- The double-loop counter is invariant under permutation of the
received entries. -/
theorem countListedObjects_perm {rc rcPerm : List ObjectInfo}
    (h : rc.Perm rcPerm) (ec : List ObjectInfo) :
    countListedObjects rc ec = countListedObjects rcPerm ec := by
  rw [countListedObjects_eq_sum, countListedObjects_eq_sum]
  exact (h.map _).sum_eq

/-! ### Claim theorems -/

/-- C7: a received entry structurally matches an expected entry exactly
when their keys are equal, their sizes are equal, and the received ETag
is surrounded by quote characters which, once removed, leave exactly the
expected ETag. -/
theorem objectInfoMatches_iff_strippedETag (r e : ObjectInfo) :
    objectInfoMatches r e = true ↔
      (r.Key = e.Key ∧ r.Size = e.Size ∧
        hasSurroundingQuotes r.ETag = true ∧
        stripSurroundingQuotes r.ETag = e.ETag) := by
  simp only [objectInfoMatches, Bool.and_eq_true, beq_iff_eq]
  rw [etagQuoted_iff r.ETag e.ETag]
  tauto

/-- Unfolding of `verifyBodyListObjectsV1` on a response whose body
decoded successfully. -/
theorem verifyBodyListObjectsV1_some (objects : List ObjectInfo) (st : String)
    (hd : List (String × String)) (receivedList expectedList : listBucketResult) :
    verifyBodyListObjectsV1 objects ⟨st, hd, some receivedList⟩ expectedList =
      if receivedList.Name ≠ expectedList.Name then
        .error ("Unexpected Bucket Listed: wanted " ++ expectedList.Name ++ ", got " ++
          receivedList.Name)
      else if expectedList.MaxKeys ≠ 0 then
        if expectedList.MaxKeys ≠
            ((receivedList.Contents.length + receivedList.CommonPrefixes.length : Nat) : Int) then
          .error ("Unexpected Number of Objects Listed: wanted " ++
            toString expectedList.MaxKeys ++ ", got " ++
            toString (receivedList.Contents.length + receivedList.CommonPrefixes.length))
        else
          .ok ()
      else if objects.length ≠ countListedObjects receivedList.Contents expectedList.Contents then
        .error ("Unexpected Number of Objects Listed: wanted " ++
          toString objects.length ++ ", got " ++
          toString (countListedObjects receivedList.Contents expectedList.Contents))
      else
        .ok () := rfl

/-- C1: `listMultipartUploadsVerify` returns success on every input —
its Go body is a bare `return nil` — even though the status-check helper
sitting next to it does flag a 403 response against an expected
"200 OK", carrying both values in its error. -/
theorem listMultipartUploadsVerify_unconditionally_ok :
    (∀ (res : HttpResponse listMultipartUploadsResult) (expectedStatus : String)
        (expectedList : listMultipartUploadsResult),
      listMultipartUploadsVerify res expectedStatus expectedList = .ok ()) ∧
    verifyStatusListMultipartUploads ⟨"403 Forbidden", [], none⟩ "200 OK" =
      .error "Unexpected Status Received: wanted 200 OK, got 403 Forbidden" := by
  refine ⟨fun _ _ _ => rfl, ?_⟩
  simp only [verifyStatusListMultipartUploads]
  rw [if_pos (by decide : ("403 Forbidden" : String) ≠ "200 OK")]
  rfl

/-- C2: on 45 key-sorted fixture objects, the max-keys expected list
built by `mainListObjectsV1` carries `MaxKeys = 30` but contains 31
entries — the Go slice `objectInfo[:31]` keeps one entry too many. -/
theorem expectedListMaxKeys_has_31_entries :
    (buildExpectedListMaxKeys "bucket-one" fixtureObjects45).Contents.length = 31 ∧
    (buildExpectedListMaxKeys "bucket-one" fixtureObjects45).MaxKeys = 30 := by
  constructor
  · simp [buildExpectedListMaxKeys, sortObjectInfosByKey, fixtureObjects45,
      List.length_mergeSort]
  · rfl

/-- C3 counterexample: with a nonzero max-keys expectation,
`verifyBodyListObjectsV1` succeeds although the matching-pair count
(zero) differs from the expected entry count (three): the matching count
is never compared in that branch. -/
theorem verifyBodyListObjectsV1_ok_despite_match_deficit :
    verifyBodyListObjectsV1 [] ⟨"200 OK", [], some recC3⟩ expC3 = .ok () ∧
    countListedObjects recC3.Contents expC3.Contents = 0 ∧
    expC3.Contents.length = 3 := by
  refine ⟨rfl, rfl, rfl⟩

/-- C3 amended: when the expected max-keys is zero (and the bucket names
match), `verifyBodyListObjectsV1` succeeds exactly when the matching-pair
count equals the size of the global `objects` fixture registry — not the
expected entry count — and on mismatch returns an error carrying the
fixture-registry size and the matching count. -/
theorem verifyBodyListObjectsV1_matches_vs_global_fixtures
    (objects : List ObjectInfo) (st : String) (hd : List (String × String))
    (receivedList expectedList : listBucketResult)
    (hname : receivedList.Name = expectedList.Name)
    (hmk : expectedList.MaxKeys = 0) :
    (verifyBodyListObjectsV1 objects ⟨st, hd, some receivedList⟩ expectedList = .ok () ↔
      countListedObjects receivedList.Contents expectedList.Contents = objects.length) ∧
    (countListedObjects receivedList.Contents expectedList.Contents ≠ objects.length →
      verifyBodyListObjectsV1 objects ⟨st, hd, some receivedList⟩ expectedList =
        .error ("Unexpected Number of Objects Listed: wanted " ++
          toString objects.length ++ ", got " ++
          toString (countListedObjects receivedList.Contents expectedList.Contents))) := by
  rw [verifyBodyListObjectsV1_some, if_neg (by simp [hname]), if_neg (by simp [hmk])]
  constructor
  · by_cases h : objects.length = countListedObjects receivedList.Contents expectedList.Contents
    · rw [if_neg (by simp [h])]
      simp [h]
    · rw [if_pos h]
      constructor
      · intro he
        cases he
      · intro hc
        exact absurd hc.symm h
  · intro hne
    rw [if_pos (fun h => hne h.symm)]

/-- C3 amended, witness. -/
theorem verifyBodyListObjectsV1_matches_vs_global_fixtures_witness :
    (verifyBodyListObjectsV1 [] ⟨"200 OK", [], some ⟨"b", [], [], 0⟩⟩ ⟨"b", [], [], 0⟩ = .ok () ↔
      countListedObjects [] [] = (0 : Nat)) ∧
    (countListedObjects [] [] ≠ (0 : Nat) →
      verifyBodyListObjectsV1 [] ⟨"200 OK", [], some ⟨"b", [], [], 0⟩⟩ ⟨"b", [], [], 0⟩ =
        .error ("Unexpected Number of Objects Listed: wanted " ++ toString (0 : Nat) ++
          ", got " ++ toString (countListedObjects [] []))) :=
  verifyBodyListObjectsV1_matches_vs_global_fixtures [] "200 OK" []
    ⟨"b", [], [], 0⟩ ⟨"b", [], [], 0⟩ rfl rfl

/-- C4 counterexample: a response whose status matches, whose decoded
bucket name differs from the expected one, and whose headers fail the
standard-headers check makes `listObjectsV1Verify` return the body
error — the body check ran even though the header check fails, so the
order is not status, header, body. -/
theorem listObjectsV1Verify_body_error_despite_header_failure :
    listObjectsV1Verify [] resC4 "200 OK" expC4 =
      .error "Unexpected Bucket Listed: wanted bucket-one, got other" ∧
    verifyHeaderListObjectsV1 resC4 = .error "Unexpected Header Received" := by
  refine ⟨rfl, rfl⟩

/-- C4 amended: `listObjectsV1Verify` performs the status check first,
the body check second, and the header check last, each running only if
the previous one succeeded; a status mismatch (e.g. a 403 when "200 OK"
is expected) yields the unexpected-status error without the body ever
being decoded. -/
theorem listObjectsV1Verify_status_body_header_order
    (objects : List ObjectInfo) (res : HttpResponse listBucketResult)
    (expectedStatus : String) (expectedList : listBucketResult) :
    (res.Status ≠ expectedStatus →
      listObjectsV1Verify objects res expectedStatus expectedList =
        .error ("Unexpected Status Received: wanted " ++ expectedStatus ++ ", got " ++
          res.Status)) ∧
    (res.Status = expectedStatus →
      listObjectsV1Verify objects res expectedStatus expectedList =
        match verifyBodyListObjectsV1 objects res expectedList with
        | .error e => .error e
        | .ok _ => verifyHeaderListObjectsV1 res) := by
  constructor
  · intro h
    simp only [listObjectsV1Verify, verifyStatusListObjectsV1]
    rw [if_pos h]
  · intro h
    have hcond : ¬(res.Status ≠ expectedStatus) := by simp [h]
    simp only [listObjectsV1Verify, verifyStatusListObjectsV1]
    rw [if_neg hcond]
    cases hb : verifyBodyListObjectsV1 objects res expectedList with
    | error e => rfl
    | ok u =>
      cases u
      cases hh : verifyHeaderListObjectsV1 res with
      | error e => rfl
      | ok u2 => cases u2; rfl

/-- C4 amended, witness. -/
theorem listObjectsV1Verify_status_body_header_order_witness :
    (("403 Forbidden" : String) ≠ "200 OK") ∧
    listObjectsV1Verify [] ⟨"403 Forbidden", [], none⟩ "200 OK" expC4 =
      .error ("Unexpected Status Received: wanted " ++ "200 OK" ++ ", got " ++
        "403 Forbidden") :=
  ⟨by decide,
    (listObjectsV1Verify_status_body_header_order [] ⟨"403 Forbidden", [], none⟩
      "200 OK" expC4).1 (by decide)⟩

/-- C5: permuting the received `Contents` sequence does not change the
outcome of `verifyBodyListObjectsV1` — the same success or the very
same error. -/
theorem verifyBodyListObjectsV1_perm_invariant
    (objects : List ObjectInfo) (st : String) (hd : List (String × String))
    (name : String) (contents contentsPermuted : List ObjectInfo)
    (prefixes : List String) (maxKeys : Int) (expectedList : listBucketResult)
    (hperm : contents.Perm contentsPermuted) :
    verifyBodyListObjectsV1 objects
        ⟨st, hd, some ⟨name, contentsPermuted, prefixes, maxKeys⟩⟩ expectedList =
      verifyBodyListObjectsV1 objects
        ⟨st, hd, some ⟨name, contents, prefixes, maxKeys⟩⟩ expectedList := by
  have hcount : countListedObjects contentsPermuted expectedList.Contents =
      countListedObjects contents expectedList.Contents :=
    (countListedObjects_perm hperm expectedList.Contents).symm
  have hlen : contentsPermuted.length = contents.length := hperm.length_eq.symm
  rw [verifyBodyListObjectsV1_some, verifyBodyListObjectsV1_some]
  simp only [hcount, hlen]

/-- C5, witness. -/
theorem verifyBodyListObjectsV1_perm_invariant_witness :
    ([objExpectedC3, objReceivedC3].Perm [objReceivedC3, objExpectedC3]) ∧
    (verifyBodyListObjectsV1 []
        ⟨"200 OK", [], some ⟨"b", [objReceivedC3, objExpectedC3], [], 0⟩⟩ ⟨"b", [], [], 0⟩ =
      verifyBodyListObjectsV1 []
        ⟨"200 OK", [], some ⟨"b", [objExpectedC3, objReceivedC3], [], 0⟩⟩ ⟨"b", [], [], 0⟩) :=
  ⟨by decide,
    verifyBodyListObjectsV1_perm_invariant [] "200 OK" [] "b"
      [objExpectedC3, objReceivedC3] [objReceivedC3, objExpectedC3] [] 0
      ⟨"b", [], [], 0⟩ (by decide)⟩

/-- C6: with matching bucket names, a nonzero expected max-keys makes
`verifyBodyListObjectsV1` fail exactly when the received entry count
(contents plus common prefixes) differs from max-keys, while a zero
max-keys makes it succeed exactly when the matching-pair count equals
the fixture-registry size. -/
theorem verifyBodyListObjectsV1_count_checks
    (objects : List ObjectInfo) (st : String) (hd : List (String × String))
    (receivedList expectedList : listBucketResult)
    (hname : receivedList.Name = expectedList.Name) :
    (expectedList.MaxKeys ≠ 0 →
      (verifyBodyListObjectsV1 objects ⟨st, hd, some receivedList⟩ expectedList ≠ .ok () ↔
        ((receivedList.Contents.length + receivedList.CommonPrefixes.length : Nat) : Int) ≠
          expectedList.MaxKeys)) ∧
    (expectedList.MaxKeys = 0 →
      (verifyBodyListObjectsV1 objects ⟨st, hd, some receivedList⟩ expectedList = .ok () ↔
        countListedObjects receivedList.Contents expectedList.Contents = objects.length)) := by
  rw [verifyBodyListObjectsV1_some, if_neg (by simp [hname])]
  constructor
  · intro hmk
    rw [if_pos hmk]
    by_cases h : expectedList.MaxKeys =
        ((receivedList.Contents.length + receivedList.CommonPrefixes.length : Nat) : Int)
    · rw [if_neg (by simp [h])]
      simp [h]
    · rw [if_pos h]
      constructor
      · intro _
        exact fun hc => h hc.symm
      · intro _ he
        cases he
  · intro hmk
    rw [if_neg (by simp [hmk])]
    by_cases h : objects.length = countListedObjects receivedList.Contents expectedList.Contents
    · rw [if_neg (by simp [h])]
      simp [h]
    · rw [if_pos h]
      constructor
      · intro he
        cases he
      · intro hc
        exact absurd hc.symm h

/-- C6, witness. -/
theorem verifyBodyListObjectsV1_count_checks_witness :
    (verifyBodyListObjectsV1 [] ⟨"200 OK", [], some ⟨"b", [], [], 0⟩⟩ ⟨"b", [], [], 0⟩ = .ok () ↔
      countListedObjects [] [] = (0 : Nat)) :=
  (verifyBodyListObjectsV1_count_checks [] "200 OK" []
    ⟨"b", [], [], 0⟩ ⟨"b", [], [], 0⟩ rfl).2 rfl

/-- C8 counterexample: the ListMultipartUploads body check succeeds even
though the received bucket name differs from the expected one, because
it never compares the bucket field. -/
theorem verifyBodyListMultipartUploads_ignores_bucket_cx :
    verifyBodyListMultipartUploads
        ⟨"200 OK", [], some ⟨"bucket-b", [uploadC8]⟩⟩ ⟨"bucket-a", [uploadC8]⟩ = .ok () ∧
    ("bucket-b" : String) ≠ "bucket-a" :=
  ⟨rfl, by decide⟩

/-- C8 amended: a bucket-name mismatch fails the ListObjects V1 body
check with the unexpected-bucket error even if all entries match, while
the ListMultipartUploads body check ignores the bucket field entirely:
its outcome is independent of the received bucket name. -/
theorem bucket_mismatch_v1_error_multipart_ignored
    (objects : List ObjectInfo) (st : String) (hd : List (String × String))
    (receivedList expectedList : listBucketResult)
    (hname : receivedList.Name ≠ expectedList.Name) :
    (verifyBodyListObjectsV1 objects ⟨st, hd, some receivedList⟩ expectedList =
      .error ("Unexpected Bucket Listed: wanted " ++ expectedList.Name ++ ", got " ++
        receivedList.Name)) ∧
    (∀ (st2 : String) (hd2 : List (String × String)) (bucketA bucketB : String)
        (uploads : List ObjectMultipartInfo) (expectedML : listMultipartUploadsResult),
      verifyBodyListMultipartUploads ⟨st2, hd2, some ⟨bucketA, uploads⟩⟩ expectedML =
        verifyBodyListMultipartUploads ⟨st2, hd2, some ⟨bucketB, uploads⟩⟩ expectedML) := by
  constructor
  · rw [verifyBodyListObjectsV1_some, if_pos hname]
  · intro st2 hd2 bucketA bucketB uploads expectedML
    rfl

/-- C8 amended, witness. -/
theorem bucket_mismatch_v1_error_multipart_ignored_witness :
    (("other" : String) ≠ "bucket-one") ∧
    (verifyBodyListObjectsV1 []
        ⟨"200 OK", [], some ⟨"other", [], [], 0⟩⟩ ⟨"bucket-one", [], [], 0⟩ =
      .error ("Unexpected Bucket Listed: wanted " ++ "bucket-one" ++ ", got " ++ "other")) :=
  ⟨by decide,
    (bucket_mismatch_v1_error_multipart_ignored [] "200 OK" []
      ⟨"other", [], [], 0⟩ ⟨"bucket-one", [], [], 0⟩ (by decide)).1⟩

/-- C9: when the endpoint parses, `setRegion` keeps a non-empty region
unchanged, and defaults an empty region to "us-west-1" for an Amazon
endpoint and to the global default region otherwise, returning no
error. -/
theorem setRegion_defaults (config : ServerConfig) (u : URL) :
    (config.Region ≠ "" → setRegion (some u) config = .ok config) ∧
    (config.Region = "" →
      setRegion (some u) config =
        .ok { config with Region :=
          if isAmazonEndpoint u then "us-west-1" else globalDefaultRegion }) := by
  constructor
  · intro h
    simp [setRegion, h]
  · intro h
    simp only [setRegion, h]
    cases hA : isAmazonEndpoint u <;> simp [hA]

/-- C9, witness. -/
theorem setRegion_defaults_witness :
    (ServerConfig.Region (ServerConfig.mk "a" "s" "http://example.com" "") = "") ∧
    (setRegion (some (URL.mk "example.com")) (ServerConfig.mk "a" "s" "http://example.com" "") =
      .ok { ServerConfig.mk "a" "s" "http://example.com" "" with Region :=
        if (isAmazonEndpoint (URL.mk "example.com")) then "us-west-1" else globalDefaultRegion }) :=
  ⟨rfl,
    (setRegion_defaults (ServerConfig.mk "a" "s" "http://example.com" "")
      (URL.mk "example.com")).2 rfl⟩

/-- C10: an expected list holding the same entry twice and a received
list of three copies of the matching entry admit no injective pairing of
received entries to expected entries, yet `verifyBodyListObjectsV1`
succeeds (against a six-element fixture registry): the check counts
matching pairs instead of enforcing an injective pairing. -/
theorem verifyBodyListObjectsV1_no_injective_pairing_ok :
    expC10.Contents = [dupObjC10, dupObjC10] ∧
    verifyBodyListObjectsV1 objectsC10 ⟨"200 OK", [], some recC10⟩ expC10 = .ok () ∧
    ¬ ∃ f : Fin recC10.Contents.length → Fin expC10.Contents.length,
        Function.Injective f ∧
        ∀ i, objectInfoMatches (recC10.Contents.get i) (expC10.Contents.get (f i)) = true := by
  refine ⟨rfl, rfl, ?_⟩
  rintro ⟨f, hinj, -⟩
  have hcard := Fintype.card_le_of_injective f hinj
  rw [Fintype.card_fin, Fintype.card_fin] at hcard
  exact absurd hcard (by decide)

end S3Verify
